import Mathlib

/-!
Shallow embedding of the HookDash webhook inspection/forwarding platform
(src/app), covering the data model, the forwarding engine, the ingestion
gateway and the owner-facing route handlers, together with proofs of the
spec claims about them.

External collaborators (the HTTP network, the `json` module, the UTF-8
decoder of the Python runtime, uuid generation) are modelled as explicit
parameters of the embedded functions; everything else is translated from
the source files directly.
-/

namespace HookDash

/-- `Settings.max_body_size` from src/app/config.py (1 MB). -/
def max_body_size : Nat := 1048576

/-- Row of the `endpoints` table (src/app/models/endpoint.py). -/
structure Endpoint where
  id : String
  user_id : String
  name : String
  description : String
  is_active : Bool
  response_code : Nat
  response_body : String
  response_content_type : String
  request_count : Nat
deriving Repr, DecidableEq

/-- Row of the `webhook_requests` table (src/app/models/webhook_request.py).
`headers` is the serialized JSON text; it is carried as an `Option` so the
`TypeError` branch of `forward_webhook` (a null value) is representable. -/
structure WebhookRequest where
  id : String
  endpoint_id : String
  method : String
  headers : Option String
  body : String
  query_params : String
  content_type : String
  source_ip : String
  body_size : Nat
deriving Repr, DecidableEq

/-- Row of the `forwarding_configs` table (src/app/models/forwarding.py). -/
structure ForwardingConfig where
  id : String
  endpoint_id : String
  target_url : String
  is_active : Bool
  max_retries : Nat
  timeout_seconds : Nat
deriving Repr, DecidableEq

/-- Row of the `forwarding_logs` table (src/app/models/forwarding.py). -/
structure ForwardingLog where
  forwarding_config_id : String
  webhook_request_id : String
  status_code : Option Nat
  success : Bool
  error_message : String
  attempt_number : Nat
  response_time_ms : Option Nat
deriving Repr, DecidableEq

/-- The relational store: the four tables, each a list of rows in insertion
order (append-only inserts model `db.add`; updates rewrite the row in
place). -/
structure DB where
  endpoints : List Endpoint
  requests : List WebhookRequest
  configs : List ForwardingConfig
  logs : List ForwardingLog
deriving Repr, DecidableEq

/-- An HTTP response produced by a route handler: status, body, media type,
and the `Location` value when the response is a redirect. -/
structure Response where
  status_code : Nat
  content : String
  media_type : String
  location : Option String
deriving Repr, DecidableEq

/-- Modelled from the Python runtime: `str.strip()` — drop leading and
trailing whitespace. -/
def pyStrip (s : String) : String :=
  String.mk
    (((s.data.dropWhile Char.isWhitespace).reverse.dropWhile
      Char.isWhitespace).reverse)

/-- Modelled from the Python runtime: `str.startswith(pre)`. -/
def pyStartswith (s pre : String) : Bool :=
  pre.data.isPrefixOf s.data

/-- Modelled from the Python runtime: `str.upper()` (ASCII range). -/
def pyUpper (s : String) : String :=
  String.mk (s.data.map Char.toUpper)

/-- Modelled from the Python runtime: `str.lower()` (ASCII range). -/
def pyLower (s : String) : String :=
  String.mk (s.data.map Char.toLower)

/-- Modelled from the Python runtime: the slice `s[:n]`. -/
def pyTake (s : String) (n : Nat) : String :=
  String.mk (s.data.take n)

/-- Python `str.isdigit()` restricted to ASCII: nonempty and all digits. -/
def pyStrIsDigit (s : String) : Bool :=
  !s.data.isEmpty && s.data.all Char.isDigit

/-- Value of `int(s)` for a string of ASCII digits. -/
def pyIntOfDigits (s : String) : Nat :=
  s.data.foldl (fun a c => a * 10 + (c.toNat - 48)) 0

/-- Modelled from the Python runtime: `int(s)` on a string — strips
whitespace, accepts an optional sign and a nonempty run of digits, and
raises `ValueError` (here: `none`) otherwise. -/
def pyToInt (s : String) : Option Int :=
  let t := pyStrip s
  if pyStartswith t "-" then
    let d := String.mk (t.data.drop 1)
    if pyStrIsDigit d then some (-(pyIntOfDigits d : Int)) else none
  else if pyStartswith t "+" then
    let d := String.mk (t.data.drop 1)
    if pyStrIsDigit d then some (pyIntOfDigits d : Int) else none
  else
    if pyStrIsDigit t then some (pyIntOfDigits t : Int) else none

/-- Modelled from the Python runtime: `json.dumps` applied to a dict of
strings, as used by `store_webhook_request` (escaping is not modelled; the
claims only depend on the serialization being a fixed canonical form). -/
def jsonDumps (m : List (String × String)) : String :=
  "\x7b" ++ String.intercalate ", "
    (m.map (fun kv => "\"" ++ kv.1 ++ "\": \"" ++ kv.2 ++ "\"")) ++ "\x7d"

/-! ## Forwarding engine (src/app/services/forwarding.py) -/

/-- What the single HTTP dispatch of `forward_webhook` did: a response with
some status, an `httpx.TimeoutException`, an `httpx.ConnectError`, or any
other transport exception carrying its `str(e)` description. -/
inductive DispatchOutcome where
  | response (status : Nat)
  | timeout
  | connectError
  | otherError (msg : String)
deriving Repr, DecidableEq

/-- `success` of an attempt as decided by `forward_webhook`: a response was
received and its status lies in [200, 300). -/
def outcomeSuccess : DispatchOutcome → Bool
  | DispatchOutcome.response code => decide (200 ≤ code ∧ code < 300)
  | DispatchOutcome.timeout => false
  | DispatchOutcome.connectError => false
  | DispatchOutcome.otherError _ => false

/-- The hop-by-hop header names dropped by `forward_webhook`. -/
def skip_headers : List String :=
  ["host", "content-length", "transfer-encoding", "connection"]

/-- Header preparation of `forward_webhook` (forwarding.py lines 158-169):
parse the stored serialized headers (`json.loads`, modelled by the
`jsonLoads` parameter; a null value raises `TypeError`, a non-JSON string
raises `JSONDecodeError`, both caught and ignored), drop hop-by-hop
fields case-insensitively, then add the two synthetic headers. -/
def prepare_headers (jsonLoads : String → Option (List (String × String)))
    (webhook_request : WebhookRequest) (attempt : Nat) :
    List (String × String) :=
  (match webhook_request.headers with
   | none => []
   | some s =>
     match jsonLoads s with
     | none => []
     | some hs => hs.filter (fun kv => !(skip_headers.contains (pyLower kv.1)))) ++
  [("X-HookDash-Request-Id", webhook_request.id),
   ("X-HookDash-Attempt", toString attempt)]

/-- Outcome classification of `forward_webhook` (the try/except around the
dispatch, forwarding.py lines 177-194): yields
(status_code, success, error_message). -/
def classifyOutcome (timeout_seconds : Nat) :
    DispatchOutcome → Option Nat × Bool × String
  | DispatchOutcome.response code =>
      (some code, decide (200 ≤ code ∧ code < 300),
       if 200 ≤ code ∧ code < 300 then "" else "HTTP " ++ toString code)
  | DispatchOutcome.timeout =>
      (none, false, "Timeout after " ++ toString timeout_seconds ++ "s")
  | DispatchOutcome.connectError =>
      (none, false, "Connection refused")
  | DispatchOutcome.otherError msg =>
      (none, false, pyTake msg 500)

/-- `create_forwarding_log` (forwarding.py lines 68-89): build the log row
and `db.add` it. -/
def create_forwarding_log (db : DB) (forwarding_config_id : String)
    (webhook_request_id : String) (status_code : Option Nat) (success : Bool)
    (error_message : String) (attempt_number : Nat)
    (response_time_ms : Option Nat) : ForwardingLog × DB :=
  let log : ForwardingLog :=
    { forwarding_config_id := forwarding_config_id,
      webhook_request_id := webhook_request_id,
      status_code := status_code,
      success := success,
      error_message := error_message,
      attempt_number := attempt_number,
      response_time_ms := response_time_ms }
  (log, { db with logs := db.logs ++ [log] })

/-- The request that `forward_webhook` hands to `httpx`. -/
structure SentRequest where
  method : String
  url : String
  headers : List (String × String)
deriving Repr, DecidableEq

/-- `forward_webhook` (forwarding.py lines 151-209): prepare headers,
dispatch (the network's behaviour is the `outcome` parameter, the measured
wall-clock time the `elapsed_ms` parameter), classify, and append exactly
one log row. Returns the log row, the dispatched request and the new
store. -/
def forward_webhook (jsonLoads : String → Option (List (String × String)))
    (db : DB) (config : ForwardingConfig) (webhook_request : WebhookRequest)
    (outcome : DispatchOutcome) (elapsed_ms : Nat) (attempt : Nat) :
    ForwardingLog × SentRequest × DB :=
  let headers := prepare_headers jsonLoads webhook_request attempt
  let sent : SentRequest :=
    { method := webhook_request.method, url := config.target_url,
      headers := headers }
  let c := classifyOutcome config.timeout_seconds outcome
  let r := create_forwarding_log db config.id webhook_request.id
    c.1 c.2.1 c.2.2 attempt (some elapsed_ms)
  (r.1, sent, r.2)

/-- The log row `forward_webhook` produces for attempt `n` under the given
network behaviour (the row does not depend on the store it is appended
to). -/
def attLog (jsonLoads : String → Option (List (String × String)))
    (config : ForwardingConfig) (webhook_request : WebhookRequest)
    (outcomes : Nat → DispatchOutcome) (elapsed : Nat → Nat) (n : Nat) :
    ForwardingLog :=
  (forward_webhook jsonLoads (DB.mk [] [] [] []) config webhook_request
    (outcomes n) (elapsed n) n).1

/-- Retry loop body of `forward_with_retries` (forwarding.py lines
219-225), with the remaining iteration count as fuel: attempt, stop on
success, otherwise sleep `min(2^(attempt-1), 30)` when further attempts
remain. Returns the store after the appended log rows, the list of sleep
durations in order, and the final log row. -/
def retryGo (jsonLoads : String → Option (List (String × String)))
    (config : ForwardingConfig) (webhook_request : WebhookRequest)
    (outcomes : Nat → DispatchOutcome) (elapsed : Nat → Nat) :
    Nat → Nat → DB → DB × List Nat × Option ForwardingLog
  | _attempt, 0, db => (db, [], none)
  | attempt, fuel + 1, db =>
    let r := forward_webhook jsonLoads db config webhook_request
      (outcomes attempt) (elapsed attempt) attempt
    if r.1.success then (r.2.2, [], some r.1)
    else if attempt < config.max_retries then
      let rest := retryGo jsonLoads config webhook_request outcomes elapsed
        (attempt + 1) fuel r.2.2
      (rest.1, min (2 ^ (attempt - 1)) 30 :: rest.2.1, rest.2.2)
    else (r.2.2, [], some r.1)

/-- `forward_with_retries` (forwarding.py lines 212-226): run attempts
1 .. max_retries. -/
def forward_with_retries (jsonLoads : String → Option (List (String × String)))
    (db : DB) (config : ForwardingConfig) (webhook_request : WebhookRequest)
    (outcomes : Nat → DispatchOutcome) (elapsed : Nat → Nat) :
    DB × List Nat × Option ForwardingLog :=
  retryGo jsonLoads config webhook_request outcomes elapsed 1
    config.max_retries db

/-! ## Endpoint registry (src/app/services/endpoint.py) -/

/-- `get_endpoint` (endpoint.py lines 58-62): ownership-scoped lookup. -/
def get_endpoint (db : DB) (endpoint_id : String) (user_id : String) :
    Option Endpoint :=
  db.endpoints.find? (fun e => e.id == endpoint_id && e.user_id == user_id)

/-- `get_endpoint_by_id` (endpoint.py lines 65-68): lookup without user
check, used only by the webhook receiver. -/
def get_endpoint_by_id (db : DB) (endpoint_id : String) : Option Endpoint :=
  db.endpoints.find? (fun e => e.id == endpoint_id)

/-- `increment_request_count` (endpoint.py lines 102-104): read-modify-write
of the counter of the given endpoint row. -/
def increment_request_count (db : DB) (endpoint : Endpoint) : DB :=
  { db with
    endpoints := db.endpoints.map (fun e =>
      if e.id == endpoint.id then
        { e with request_count := e.request_count + 1 }
      else e) }

/-- `create_endpoint` (endpoint.py lines 27-46); the uuid the store assigns
is the `new_id` parameter. -/
def create_endpoint (db : DB) (user_id : String) (name : String)
    (description : String) (response_code : Nat) (response_body : String)
    (response_content_type : String) (new_id : String) : Endpoint × DB :=
  let endpoint : Endpoint :=
    { id := new_id, user_id := user_id, name := pyStrip name,
      description := pyStrip description, is_active := true,
      response_code := response_code, response_body := response_body,
      response_content_type := response_content_type, request_count := 0 }
  (endpoint, { db with endpoints := db.endpoints ++ [endpoint] })

/-- `update_endpoint` (endpoint.py lines 71-94) as applied by the edit
handler, which supplies every field. -/
def update_endpoint (db : DB) (endpoint : Endpoint) (name : String)
    (description : String) (is_active : Bool) (response_code : Nat)
    (response_body : String) (response_content_type : String) : DB :=
  { db with
    endpoints := db.endpoints.map (fun e =>
      if e.id == endpoint.id then
        { e with name := pyStrip name, description := pyStrip description,
                 is_active := is_active, response_code := response_code,
                 response_body := response_body,
                 response_content_type := response_content_type }
      else e) }

/-- `delete_endpoint` (endpoint.py lines 97-99) with the foreign-key
cascades declared in the models: the endpoint row, its webhook requests,
its forwarding config, and (through the config) its forwarding logs. -/
def delete_endpoint (db : DB) (endpoint : Endpoint) : DB :=
  let deadConfigs := db.configs.filter (fun c => c.endpoint_id == endpoint.id)
  { endpoints := db.endpoints.filter (fun e => !(e.id == endpoint.id)),
    requests := db.requests.filter (fun r => !(r.endpoint_id == endpoint.id)),
    configs := db.configs.filter (fun c => !(c.endpoint_id == endpoint.id)),
    logs := db.logs.filter (fun l =>
      !(deadConfigs.any (fun c => c.id == l.forwarding_config_id))) }

/-! ## Request store (src/app/services/receiver.py) -/

/-- `store_webhook_request` (receiver.py lines 11-34): build the row
(upper-cased method, serialized maps, body size in UTF-8 bytes), `db.add`
it and bump the endpoint counter. The uuid is the `new_id` parameter. -/
def store_webhook_request (db : DB) (endpoint : Endpoint) (method : String)
    (headers : List (String × String)) (body : String)
    (query_params : List (String × String)) (content_type : String)
    (source_ip : String) (new_id : String) : WebhookRequest × DB :=
  let webhook_req : WebhookRequest :=
    { id := new_id, endpoint_id := endpoint.id, method := pyUpper method,
      headers := some (jsonDumps headers), body := body,
      query_params := jsonDumps query_params, content_type := content_type,
      source_ip := source_ip,
      body_size := if body.isEmpty then 0 else body.utf8ByteSize }
  let db1 := { db with requests := db.requests ++ [webhook_req] }
  let db2 := increment_request_count db1 endpoint
  (webhook_req, db2)

/-- `get_webhook_request` (receiver.py lines 75-84). -/
def get_webhook_request (db : DB) (request_id : String)
    (endpoint_id : String) : Option WebhookRequest :=
  db.requests.find? (fun r => r.id == request_id && r.endpoint_id == endpoint_id)

/-! ## Forwarding configuration store (src/app/services/forwarding.py) -/

/-- `get_forwarding_config` (forwarding.py lines 16-20). -/
def get_forwarding_config (db : DB) (endpoint_id : String) :
    Option ForwardingConfig :=
  db.configs.find? (fun c => c.endpoint_id == endpoint_id)

/-- `create_forwarding_config` (forwarding.py lines 23-40); uuid is the
`new_id` parameter. -/
def create_forwarding_config (db : DB) (endpoint_id : String)
    (target_url : String) (is_active : Bool) (max_retries : Nat)
    (timeout_seconds : Nat) (new_id : String) : DB :=
  { db with
    configs := db.configs ++
      [{ id := new_id, endpoint_id := endpoint_id,
         target_url := pyStrip target_url, is_active := is_active,
         max_retries := max_retries, timeout_seconds := timeout_seconds }] }

/-- `update_forwarding_config` (forwarding.py lines 43-60) as applied by
the save handler, which supplies every field. -/
def update_forwarding_config (db : DB) (config : ForwardingConfig)
    (target_url : String) (is_active : Bool) (max_retries : Nat)
    (timeout_seconds : Nat) : DB :=
  { db with
    configs := db.configs.map (fun c =>
      if c.id == config.id then
        { c with target_url := pyStrip target_url, is_active := is_active,
                 max_retries := max_retries, timeout_seconds := timeout_seconds }
      else c) }

/-- `delete_forwarding_config` (forwarding.py lines 63-65) with the cascade
to its logs. -/
def delete_forwarding_config (db : DB) (config : ForwardingConfig) : DB :=
  { db with
    configs := db.configs.filter (fun c => !(c.id == config.id)),
    logs := db.logs.filter (fun l => !(l.forwarding_config_id == config.id)) }

/-- Truncation toward zero, the behaviour of Python `int()` on a float. -/
def pyTruncRat (q : ℚ) : ℤ :=
  if q < 0 then ⌈q⌉ else ⌊q⌋

/-- Round-half-even at integer precision, the behaviour of Python
`round()`. -/
def roundHalfEven (q : ℚ) : ℤ :=
  if Int.fract q < 1/2 then ⌊q⌋
  else if 1/2 < Int.fract q then ⌊q⌋ + 1
  else if ⌊q⌋ % 2 = 0 then ⌊q⌋ else ⌊q⌋ + 1

/-- Python `round(q, 1)`. -/
def pyRound1 (q : ℚ) : ℚ :=
  (roundHalfEven (q * 10) : ℚ) / 10

/-- Result of `get_forwarding_stats`. -/
structure ForwardingStats where
  total : Nat
  successes : Nat
  failures : Nat
  success_rate : ℚ
  avg_response_ms : ℤ
deriving Repr, DecidableEq

/-- `get_forwarding_stats` (forwarding.py lines 113-148): count all rows of
the config, count the successful ones, subtract for failures, and average
the non-null response times (SQL `AVG` yields NULL on an empty set; the
Python code maps a null or zero average to 0 and truncates otherwise). -/
def get_forwarding_stats (db : DB) (forwarding_config_id : String) :
    ForwardingStats :=
  let rows := db.logs.filter
    (fun l => l.forwarding_config_id == forwarding_config_id)
  let total := rows.length
  let successes := (rows.filter (fun l => l.success)).length
  let failed := total - successes
  let times : List Nat := rows.filterMap (fun l => l.response_time_ms)
  let avg_time : Option ℚ :=
    if times.isEmpty then none
    else some ((times.map (fun t : ℕ => (t : ℚ))).sum / (times.length : ℚ))
  { total := total, successes := successes, failures := failed,
    success_rate :=
      pyRound1 (if 0 < total then (successes : ℚ) / total * 100 else 0),
    avg_response_ms :=
      match avg_time with
      | none => 0
      | some q => if q = 0 then 0 else pyTruncRat q }

/-! ## Ingestion gateway (src/app/api/receiver.py) -/

/-- The inbound HTTP call as the receiver sees it: the method, the
Content-Length header value as sent (if any), the raw body bytes, the
header and query maps, the content type (`headers.get("content-type",
"")`), and the client host (`request.client`). -/
structure InboundRequest where
  method : String
  content_length : Option String
  body_bytes : List Nat
  headers : List (String × String)
  query_params : List (String × String)
  content_type : String
  client_host : Option String
deriving Repr, DecidableEq

/-- Structured error body returned for an unknown endpoint id. -/
def err_not_found : Response :=
  { status_code := 404, content := "\x7b\"error\": \"Endpoint not found\"\x7d",
    media_type := "application/json", location := none }

/-- Structured error body returned for an inactive endpoint. -/
def err_inactive : Response :=
  { status_code := 410, content := "\x7b\"error\": \"Endpoint is inactive\"\x7d",
    media_type := "application/json", location := none }

/-- Structured error body returned for an oversized payload. -/
def err_too_large : Response :=
  { status_code := 413,
    content := "\x7b\"error\": \"Request body too large (max 1MB)\"\x7d",
    media_type := "application/json", location := none }

/-- `receive_webhook` (receiver.py lines 63-135): resolve the endpoint,
check the active flag, pre-check the declared Content-Length, read and
check the actual body size, decode (the runtime's lossy UTF-8 decoder is
the `decode` parameter), persist via the request store, look up the
forwarding config (the scheduled background delivery is reported as the
third component), and answer with the endpoint's canned response. -/
def receive_webhook (decode : List Nat → String) (db : DB)
    (endpoint_id : String) (request : InboundRequest) (new_id : String) :
    Response × DB × Option String :=
  match get_endpoint_by_id db endpoint_id with
  | none => (err_not_found, db, none)
  | some endpoint =>
    if !endpoint.is_active then (err_inactive, db, none)
    else
      let cl_rejects :=
        match request.content_length with
        | none => false
        | some cl =>
          !cl.isEmpty && pyStrIsDigit cl &&
            decide (pyIntOfDigits cl > max_body_size)
      if cl_rejects then (err_too_large, db, none)
      else
        let body_bytes := request.body_bytes
        if body_bytes.length > max_body_size then (err_too_large, db, none)
        else
          let body := decode body_bytes
          let source_ip :=
            match request.client_host with
            | some h => h
            | none => "unknown"
          let r := store_webhook_request db endpoint request.method
            request.headers body request.query_params request.content_type
            source_ip new_id
          let scheduled :=
            match get_forwarding_config r.2 endpoint_id with
            | some fwd_config =>
              if fwd_config.is_active then some fwd_config.id else none
            | none => none
          ({ status_code := endpoint.response_code,
             content := endpoint.response_body,
             media_type := endpoint.response_content_type,
             location := none }, r.2, scheduled)

/-! ## Owner-facing route handlers
(src/app/api/endpoints.py and src/app/api/forwarding.py) -/

/-- The 404 page rendered from `endpoints/not_found.html`. -/
def not_found_page : Response :=
  { status_code := 404, content := "endpoints/not_found.html",
    media_type := "text/html", location := none }

/-- A 302 redirect to `url`. -/
def redirect (url : String) : Response :=
  { status_code := 302, content := "", media_type := "", location := some url }

/-- A rendered template page with the given status (bodies are not
modelled; the template path stands for the rendered HTML). -/
def template_page (tpl : String) (status : Nat) : Response :=
  { status_code := status, content := tpl, media_type := "text/html",
    location := none }

/-- The endpoint create/edit form fields as submitted. -/
structure EndpointForm where
  name : Option String
  description : Option String
  is_active : Option String
  response_code : Option String
  response_body : Option String
  response_content_type : Option String
deriving Repr, DecidableEq

/-- The forwarding-config form fields as submitted. -/
structure ForwardingForm where
  target_url : Option String
  is_active : Option String
  max_retries : Option String
  timeout_seconds : Option String
deriving Repr, DecidableEq

/-- `str(form.get(field, ""))` for an optional text field. -/
def formStr (v : Option String) (dflt : String) : String :=
  match v with
  | none => dflt
  | some s => s

/-- `endpoint_create` (endpoints.py lines 67-116). The quota service is the
`can_create` parameter, the assigned uuid the `new_id` parameter. Note the
bare `int(form.get("response_code", 200))` at line 76: a present but
non-numeric value raises `ValueError` out of the handler (modelled as
`Except.error`). -/
def endpoint_create (db : DB) (user_id : String) (can_create : Bool)
    (form : EndpointForm) (new_id : String) :
    Except String (Response × DB) :=
  let name := pyStrip (formStr form.name "")
  let description := pyStrip (formStr form.description "")
  match (match form.response_code with
         | none => some (200 : Int)
         | some s => pyToInt s) with
  | none => Except.error "ValueError: invalid literal for int()"
  | some response_code =>
    let response_body := formStr form.response_body "\x7b\"ok\": true\x7d"
    let response_content_type :=
      formStr form.response_content_type "application/json"
    if name.isEmpty then
      Except.ok (template_page "endpoints/new.html" 422, db)
    else if name.length > 255 then
      Except.ok (template_page "endpoints/new.html" 422, db)
    else if response_code < 100 ∨ response_code > 599 then
      Except.ok (template_page "endpoints/new.html" 422, db)
    else if !can_create then
      Except.ok (template_page "endpoints/new.html" 403, db)
    else
      let r := create_endpoint db user_id name description
        response_code.toNat response_body response_content_type new_id
      Except.ok (redirect ("/endpoints/" ++ new_id), r.2)

/-- `endpoint_detail` (endpoints.py lines 119-171); the rendered page and
its pagination are not modelled, only the ownership-scoped lookup and the
resulting status. -/
def endpoint_detail (db : DB) (user_id : String) (endpoint_id : String) :
    Response :=
  match get_endpoint db endpoint_id user_id with
  | none => not_found_page
  | some _ => template_page "endpoints/detail.html" 200

/-- `endpoint_edit_page` (endpoints.py lines 174-188). -/
def endpoint_edit_page (db : DB) (user_id : String) (endpoint_id : String) :
    Response :=
  match get_endpoint db endpoint_id user_id with
  | none => not_found_page
  | some _ => template_page "endpoints/edit.html" 200

/-- `endpoint_update` (endpoints.py lines 191-231). As in the create
handler, `int(form.get("response_code", endpoint.response_code))` at line
208 raises on a present non-numeric value. -/
def endpoint_update (db : DB) (user_id : String) (endpoint_id : String)
    (form : EndpointForm) : Except String (Response × DB) :=
  match get_endpoint db endpoint_id user_id with
  | none => Except.ok (not_found_page, db)
  | some endpoint =>
    let name := pyStrip (formStr form.name "")
    let description := pyStrip (formStr form.description "")
    let is_active := form.is_active == some "on"
    match (match form.response_code with
           | none => some (endpoint.response_code : Int)
           | some s => pyToInt s) with
    | none => Except.error "ValueError: invalid literal for int()"
    | some response_code =>
      let response_body := formStr form.response_body endpoint.response_body
      let response_content_type :=
        formStr form.response_content_type endpoint.response_content_type
      if name.isEmpty then
        Except.ok (template_page "endpoints/edit.html" 422, db)
      else if response_code < 100 ∨ response_code > 599 then
        Except.ok (template_page "endpoints/edit.html" 422, db)
      else
        Except.ok (redirect ("/endpoints/" ++ endpoint_id),
          update_endpoint db endpoint name description is_active
            response_code.toNat response_body response_content_type)

/-- `endpoint_remove` (endpoints.py lines 234-247). -/
def endpoint_remove (db : DB) (user_id : String) (endpoint_id : String) :
    Response × DB :=
  match get_endpoint db endpoint_id user_id with
  | none => (not_found_page, db)
  | some endpoint => (redirect "/endpoints", delete_endpoint db endpoint)

/-- The `max_retries` field of the forwarding form as the handler parses
it: `try: int(form.get("max_retries", 5)) except (ValueError, TypeError):
max_retries = 5` (forwarding.py api, lines 38-41). -/
def parsedRetries (form : ForwardingForm) : Int :=
  match form.max_retries with
  | none => 5
  | some s =>
    match pyToInt s with
    | some n => n
    | none => 5

/-- The `timeout_seconds` field of the forwarding form as the handler
parses it (forwarding.py api, lines 42-45). -/
def parsedTimeout (form : ForwardingForm) : Int :=
  match form.timeout_seconds with
  | none => 30
  | some s =>
    match pyToInt s with
    | some n => n
    | none => 30

/-- `save_forwarding` (forwarding.py api, lines 24-72): ownership-scoped
endpoint lookup, form parsing with fallback defaults for the numeric
fields, target-url policy checks, clamping, and upsert. -/
def save_forwarding (db : DB) (user_id : String) (endpoint_id : String)
    (form : ForwardingForm) (new_id : String) : Response × DB :=
  match get_endpoint db endpoint_id user_id with
  | none => (redirect "/endpoints", db)
  | some _endpoint =>
    let target_url := pyStrip (formStr form.target_url "")
    let is_active := form.is_active == some "on"
    let max_retries : Int := parsedRetries form
    let timeout_seconds : Int := parsedTimeout form
    if target_url.isEmpty then
      (redirect ("/endpoints/" ++ endpoint_id ++
        "?fwd_error=Target+URL+is+required"), db)
    else if !(pyStartswith target_url "http://" ||
        pyStartswith target_url "https://") then
      (redirect ("/endpoints/" ++ endpoint_id ++
        "?fwd_error=URL+must+start+with+http://+or+https://"), db)
    else
      let max_retries := max 1 (min max_retries 10)
      let timeout_seconds := max 5 (min timeout_seconds 120)
      let db2 :=
        match get_forwarding_config db endpoint_id with
        | some config =>
          update_forwarding_config db config target_url is_active
            max_retries.toNat timeout_seconds.toNat
        | none =>
          create_forwarding_config db endpoint_id target_url is_active
            max_retries.toNat timeout_seconds.toNat new_id
      (redirect ("/endpoints/" ++ endpoint_id), db2)

/-- `remove_forwarding` (forwarding.py api, lines 75-90). -/
def remove_forwarding (db : DB) (user_id : String) (endpoint_id : String) :
    Response × DB :=
  match get_endpoint db endpoint_id user_id with
  | none => (redirect "/endpoints", db)
  | some _ =>
    match get_forwarding_config db endpoint_id with
    | some config =>
      (redirect ("/endpoints/" ++ endpoint_id),
       delete_forwarding_config db config)
    | none => (redirect ("/endpoints/" ++ endpoint_id), db)

/-- `forwarding_logs_page` (forwarding.py api, lines 93-132); the rendered
log page and its pagination are not modelled, only the lookups and the
resulting status. -/
def forwarding_logs_page (db : DB) (user_id : String)
    (endpoint_id : String) : Response :=
  match get_endpoint db endpoint_id user_id with
  | none => not_found_page
  | some _ =>
    match get_forwarding_config db endpoint_id with
    | none => redirect ("/endpoints/" ++ endpoint_id)
    | some _ => template_page "forwarding/logs.html" 200

/-- `replay_webhook` (forwarding.py api, lines 135-164): a manual replay
invokes a single `forward_webhook` with the default attempt number 1. -/
def replay_webhook (jsonLoads : String → Option (List (String × String)))
    (db : DB) (user_id : String) (endpoint_id : String)
    (request_id : String) (outcome : DispatchOutcome) (elapsed_ms : Nat) :
    Response × DB :=
  match get_endpoint db endpoint_id user_id with
  | none => (redirect "/endpoints", db)
  | some _ =>
    match get_forwarding_config db endpoint_id with
    | none =>
      (redirect ("/endpoints/" ++ endpoint_id ++
        "?fwd_error=Forwarding+not+configured+or+inactive"), db)
    | some config =>
      if !config.is_active then
        (redirect ("/endpoints/" ++ endpoint_id ++
          "?fwd_error=Forwarding+not+configured+or+inactive"), db)
      else
        match get_webhook_request db request_id endpoint_id with
        | none =>
          (redirect ("/endpoints/" ++ endpoint_id ++
            "?fwd_error=Request+not+found"), db)
        | some webhook_req =>
          let r := forward_webhook jsonLoads db config webhook_req outcome
            elapsed_ms 1
          (redirect ("/endpoints/" ++ endpoint_id ++ "/forwarding/logs"),
           r.2.2)

/-! ## Fixtures for witnesses -/

/-- A sample forwarding config. -/
def sampleConfig : ForwardingConfig :=
  { id := "cfg1", endpoint_id := "ep1",
    target_url := "http://target.example/hook", is_active := true,
    max_retries := 3, timeout_seconds := 30 }

/-- A sample stored webhook request whose serialized headers are not valid
JSON. -/
def sampleRequest : WebhookRequest :=
  { id := "req1", endpoint_id := "ep1", method := "POST",
    headers := some "not json", body := "payload",
    query_params := "\x7b\x7d", content_type := "application/json",
    source_ip := "1.2.3.4", body_size := 7 }

/-- A sample endpoint owned by `user1`. -/
def sampleEndpoint : Endpoint :=
  { id := "ep1", user_id := "user1", name := "Test", description := "",
    is_active := true, response_code := 200,
    response_body := "\x7b\"ok\": true\x7d",
    response_content_type := "application/json", request_count := 0 }

/-- A sample store holding the endpoint, the request and the config. -/
def sampleDB : DB :=
  { endpoints := [sampleEndpoint], requests := [sampleRequest],
    configs := [sampleConfig], logs := [] }

/-! ## Simple facts about `forward_webhook` -/

theorem forward_webhook_fst (jsonLoads : String → Option (List (String × String)))
    (db : DB) (config : ForwardingConfig) (webhook_request : WebhookRequest)
    (outcome : DispatchOutcome) (elapsed_ms attempt : Nat) :
    (forward_webhook jsonLoads db config webhook_request outcome elapsed_ms
      attempt).1 =
    { forwarding_config_id := config.id,
      webhook_request_id := webhook_request.id,
      status_code := (classifyOutcome config.timeout_seconds outcome).1,
      success := (classifyOutcome config.timeout_seconds outcome).2.1,
      error_message := (classifyOutcome config.timeout_seconds outcome).2.2,
      attempt_number := attempt, response_time_ms := some elapsed_ms } := rfl

theorem forward_webhook_snd_snd (jsonLoads : String → Option (List (String × String)))
    (db : DB) (config : ForwardingConfig) (webhook_request : WebhookRequest)
    (outcome : DispatchOutcome) (elapsed_ms attempt : Nat) :
    (forward_webhook jsonLoads db config webhook_request outcome elapsed_ms
      attempt).2.2 =
    { db with logs := db.logs ++
        [(forward_webhook jsonLoads db config webhook_request outcome
          elapsed_ms attempt).1] } := rfl

theorem forward_webhook_sent (jsonLoads : String → Option (List (String × String)))
    (db : DB) (config : ForwardingConfig) (webhook_request : WebhookRequest)
    (outcome : DispatchOutcome) (elapsed_ms attempt : Nat) :
    (forward_webhook jsonLoads db config webhook_request outcome elapsed_ms
      attempt).2.1 =
    { method := webhook_request.method, url := config.target_url,
      headers := prepare_headers jsonLoads webhook_request attempt } := rfl

/-- C2: every single delivery attempt made by `forward_webhook` is
classified as: success exactly when a response with status in [200,300)
was received; a received non-2xx response fails with message
"HTTP {code}" and the received status; a timeout fails with
"Timeout after {timeout_seconds}s" and null status; a connection failure
fails with "Connection refused" and null status; any other transport
failure fails with its description truncated to 500 characters and null
status. -/
theorem forward_webhook_classification
    (jsonLoads : String → Option (List (String × String))) (db : DB)
    (config : ForwardingConfig) (webhook_request : WebhookRequest)
    (outcome : DispatchOutcome) (elapsed_ms attempt : Nat) :
    ((forward_webhook jsonLoads db config webhook_request outcome elapsed_ms
        attempt).1.success = true ↔
      ∃ code, outcome = DispatchOutcome.response code ∧
        200 ≤ code ∧ code < 300) ∧
    (∀ code, outcome = DispatchOutcome.response code →
      (forward_webhook jsonLoads db config webhook_request outcome elapsed_ms
        attempt).1.status_code = some code ∧
      (¬(200 ≤ code ∧ code < 300) →
        (forward_webhook jsonLoads db config webhook_request outcome
          elapsed_ms attempt).1.success = false ∧
        (forward_webhook jsonLoads db config webhook_request outcome
          elapsed_ms attempt).1.error_message = "HTTP " ++ toString code)) ∧
    (outcome = DispatchOutcome.timeout →
      (forward_webhook jsonLoads db config webhook_request outcome elapsed_ms
        attempt).1.success = false ∧
      (forward_webhook jsonLoads db config webhook_request outcome elapsed_ms
        attempt).1.status_code = none ∧
      (forward_webhook jsonLoads db config webhook_request outcome elapsed_ms
        attempt).1.error_message =
        "Timeout after " ++ toString config.timeout_seconds ++ "s") ∧
    (outcome = DispatchOutcome.connectError →
      (forward_webhook jsonLoads db config webhook_request outcome elapsed_ms
        attempt).1.success = false ∧
      (forward_webhook jsonLoads db config webhook_request outcome elapsed_ms
        attempt).1.status_code = none ∧
      (forward_webhook jsonLoads db config webhook_request outcome elapsed_ms
        attempt).1.error_message = "Connection refused") ∧
    (∀ msg, outcome = DispatchOutcome.otherError msg →
      (forward_webhook jsonLoads db config webhook_request outcome elapsed_ms
        attempt).1.success = false ∧
      (forward_webhook jsonLoads db config webhook_request outcome elapsed_ms
        attempt).1.status_code = none ∧
      (forward_webhook jsonLoads db config webhook_request outcome elapsed_ms
        attempt).1.error_message = pyTake msg 500) := by
  refine ⟨?_, ?_, ?_, ?_, ?_⟩
  · rw [forward_webhook_fst]
    cases outcome with
    | response code =>
      simp only [classifyOutcome]
      constructor
      · intro h
        exact ⟨code, rfl, of_decide_eq_true h⟩
      · rintro ⟨c, hc, h1, h2⟩
        cases hc
        exact decide_eq_true ⟨h1, h2⟩
    | timeout => simp [classifyOutcome]
    | connectError => simp [classifyOutcome]
    | otherError msg => simp [classifyOutcome]
  · rintro code rfl
    rw [forward_webhook_fst]
    refine ⟨rfl, fun h => ⟨?_, ?_⟩⟩
    · simpa [classifyOutcome] using h
    · simp [classifyOutcome, if_neg h]
  · rintro rfl
    rw [forward_webhook_fst]
    exact ⟨rfl, rfl, rfl⟩
  · rintro rfl
    rw [forward_webhook_fst]
    exact ⟨rfl, rfl, rfl⟩
  · rintro msg rfl
    rw [forward_webhook_fst]
    simp [classifyOutcome]

theorem forward_webhook_classification_witness :
    (forward_webhook (fun _ => none) sampleDB sampleConfig sampleRequest
      (DispatchOutcome.response 404) 7 1).1.success = false ∧
    (forward_webhook (fun _ => none) sampleDB sampleConfig sampleRequest
      (DispatchOutcome.response 404) 7 1).1.error_message = "HTTP 404" ∧
    (forward_webhook (fun _ => none) sampleDB sampleConfig sampleRequest
      (DispatchOutcome.response 404) 7 1).1.status_code = some 404 := by
  have h := forward_webhook_classification (fun _ => none) sampleDB
    sampleConfig sampleRequest (DispatchOutcome.response 404) 7 1
  have h2 := h.2.1 404 rfl
  have h3 := h2.2 (by decide)
  exact ⟨h3.1, h3.2, h2.1⟩

/-- C10: when the stored serialized headers are null or not valid JSON,
`forward_webhook` does not fail: the dispatched request carries exactly
the two synthetic headers, and exactly one log row is appended. -/
theorem forward_webhook_invalid_headers_json
    (jsonLoads : String → Option (List (String × String))) (db : DB)
    (config : ForwardingConfig) (webhook_request : WebhookRequest)
    (outcome : DispatchOutcome) (elapsed_ms attempt : Nat)
    (h : webhook_request.headers = none ∨
      ∃ s, webhook_request.headers = some s ∧ jsonLoads s = none) :
    (forward_webhook jsonLoads db config webhook_request outcome elapsed_ms
      attempt).2.1.headers =
      [("X-HookDash-Request-Id", webhook_request.id),
       ("X-HookDash-Attempt", toString attempt)] ∧
    (forward_webhook jsonLoads db config webhook_request outcome elapsed_ms
      attempt).2.2.logs = db.logs ++
      [(forward_webhook jsonLoads db config webhook_request outcome
        elapsed_ms attempt).1] := by
  refine ⟨?_, by rw [forward_webhook_snd_snd]⟩
  rw [forward_webhook_sent]
  rcases h with h | ⟨s, hs, hnone⟩
  · simp [prepare_headers, h]
  · simp [prepare_headers, hs, hnone]

theorem forward_webhook_invalid_headers_json_witness :
    (forward_webhook (fun _ => none) sampleDB sampleConfig sampleRequest
      (DispatchOutcome.response 200) 5 1).2.1.headers =
      [("X-HookDash-Request-Id", "req1"), ("X-HookDash-Attempt", "1")] ∧
    (forward_webhook (fun _ => none) sampleDB sampleConfig sampleRequest
      (DispatchOutcome.response 200) 5 1).2.2.logs.length = 1 := by
  have h := forward_webhook_invalid_headers_json (fun _ => none) sampleDB
    sampleConfig sampleRequest (DispatchOutcome.response 200) 5 1
    (Or.inr ⟨"not json", rfl, rfl⟩)
  refine ⟨by simpa [sampleRequest] using h.1, ?_⟩
  rw [h.2]
  simp [sampleDB]

/-! ## Request store: C5 -/

/-- `find?` commutes with a map that cannot change the predicate's
verdict. -/
theorem find?_map_pred_invariant {α : Type} (f : α → α) (p : α → Bool)
    (h : ∀ x, p (f x) = p x) :
    ∀ l : List α, (l.map f).find? p = (l.find? p).map f := by
  intro l
  induction l with
  | nil => rfl
  | cons a t ih =>
    simp only [List.map_cons, List.find?]
    rw [h a]
    cases hpa : p a with
    | true => rfl
    | false => exact ih

/-- The request counter of an endpoint row, as read back from the store. -/
def endpointRequestCount (db : DB) (id : String) : Option Nat :=
  (db.endpoints.find? (fun e => e.id == id)).map (fun e => e.request_count)

/-- C5: `store_webhook_request` persists exactly one `WebhookRequest` —
method upper-cased, headers and query params serialized, `body_size` the
UTF-8 byte length of the body — and bumps the owning endpoint's
`request_count` by exactly one, leaving every other endpoint's counter
unchanged. -/
theorem store_webhook_request_spec (db : DB) (endpoint : Endpoint)
    (method : String) (headers : List (String × String)) (body : String)
    (query_params : List (String × String)) (content_type : String)
    (source_ip : String) (new_id : String) :
    (store_webhook_request db endpoint method headers body query_params
      content_type source_ip new_id).2.requests =
      db.requests ++
        [(store_webhook_request db endpoint method headers body query_params
          content_type source_ip new_id).1] ∧
    (store_webhook_request db endpoint method headers body query_params
      content_type source_ip new_id).1.method = pyUpper method ∧
    (store_webhook_request db endpoint method headers body query_params
      content_type source_ip new_id).1.headers = some (jsonDumps headers) ∧
    (store_webhook_request db endpoint method headers body query_params
      content_type source_ip new_id).1.query_params =
      jsonDumps query_params ∧
    (store_webhook_request db endpoint method headers body query_params
      content_type source_ip new_id).1.body_size = body.utf8ByteSize ∧
    (store_webhook_request db endpoint method headers body query_params
      content_type source_ip new_id).1.endpoint_id = endpoint.id ∧
    endpointRequestCount (store_webhook_request db endpoint method headers
      body query_params content_type source_ip new_id).2 endpoint.id =
      (endpointRequestCount db endpoint.id).map (fun n => n + 1) ∧
    (∀ id, id ≠ endpoint.id →
      endpointRequestCount (store_webhook_request db endpoint method headers
        body query_params content_type source_ip new_id).2 id =
        endpointRequestCount db id) := by
  have hid : ∀ (idq : String) (x : Endpoint),
      (((if x.id == endpoint.id then
          { x with request_count := x.request_count + 1 } else x) : Endpoint).id
        == idq) = (x.id == idq) := by
    intro idq x
    cases hx : x.id == endpoint.id <;> simp [hx]
  refine ⟨rfl, rfl, rfl, rfl, ?_, rfl, ?_, ?_⟩
  · show (if body.isEmpty then 0 else body.utf8ByteSize) = body.utf8ByteSize
    cases hb : body.isEmpty with
    | true =>
      rw [if_pos rfl, (String.isEmpty_iff body).mp hb]
      rfl
    | false => rw [if_neg (by simp [hb])]
  · show endpointRequestCount
      (increment_request_count
        { db with requests := db.requests ++ [_] } endpoint) endpoint.id = _
    unfold endpointRequestCount increment_request_count
    rw [find?_map_pred_invariant _ _ (hid endpoint.id)]
    cases hf : db.endpoints.find? (fun e => e.id == endpoint.id) with
    | none => rfl
    | some e =>
      have he := List.find?_some hf
      simp only [beq_iff_eq] at he
      simp [he]
  · intro idq hne
    show endpointRequestCount
      (increment_request_count
        { db with requests := db.requests ++ [_] } endpoint) idq = _
    unfold endpointRequestCount increment_request_count
    rw [find?_map_pred_invariant _ _ (hid idq)]
    cases hf : db.endpoints.find? (fun e => e.id == idq) with
    | none => rfl
    | some e =>
      have he := List.find?_some hf
      simp only [beq_iff_eq] at he
      have hne2 : e.id ≠ endpoint.id := by
        rw [he]
        exact hne
      simp [hne2]

theorem store_webhook_request_spec_witness :
    (store_webhook_request sampleDB sampleEndpoint "post"
      [("X-One", "1")] "hi" [] "text/plain" "9.9.9.9" "req2").1.body_size =
      2 ∧
    endpointRequestCount (store_webhook_request sampleDB sampleEndpoint
      "post" [("X-One", "1")] "hi" [] "text/plain" "9.9.9.9" "req2").2
      "ep1" = some 1 ∧
    endpointRequestCount (store_webhook_request sampleDB sampleEndpoint
      "post" [("X-One", "1")] "hi" [] "text/plain" "9.9.9.9" "req2").2
      "ep0" = none := by
  have h := store_webhook_request_spec sampleDB sampleEndpoint "post"
    [("X-One", "1")] "hi" [] "text/plain" "9.9.9.9" "req2"
  refine ⟨?_, ?_, ?_⟩
  · rw [h.2.2.2.2.1]
    decide
  · show endpointRequestCount (store_webhook_request sampleDB sampleEndpoint
      "post" [("X-One", "1")] "hi" [] "text/plain" "9.9.9.9" "req2").2
      sampleEndpoint.id = some 1
    rw [h.2.2.2.2.2.2.1]
    decide
  · have h2 := h.2.2.2.2.2.2.2 "ep0" (by decide)
    rw [h2]
    decide

/-! ## Forwarding stats: C6 -/

/-- A list splits into the rows matching a predicate and the rest. -/
theorem length_filter_add_length_filter_not {α : Type} (p : α → Bool) :
    ∀ l : List α,
      (l.filter p).length + (l.filter (fun x => !(p x))).length = l.length := by
  intro l
  induction l with
  | nil => rfl
  | cons a t ih =>
    cases hpa : p a <;> simp [List.filter_cons, hpa] <;> omega

/-- The log rows of a forwarding config, used to state C6. -/
def configLogs (db : DB) (forwarding_config_id : String) :
    List ForwardingLog :=
  db.logs.filter (fun l => l.forwarding_config_id == forwarding_config_id)

/-- The non-null response times among a config's log rows. -/
def configTimes (db : DB) (forwarding_config_id : String) : List Nat :=
  (configLogs db forwarding_config_id).filterMap
    (fun l => l.response_time_ms)

/-- The store of the stats example: three log rows for config "c" with
response times 50, 100, 150 and successes true, false, true. -/
def statsExampleDB : DB :=
  { endpoints := [], requests := [], configs := [],
    logs :=
      [{ forwarding_config_id := "c", webhook_request_id := "r1",
         status_code := some 200, success := true, error_message := "",
         attempt_number := 1, response_time_ms := some 50 },
       { forwarding_config_id := "c", webhook_request_id := "r2",
         status_code := some 500, success := false,
         error_message := "HTTP 500", attempt_number := 1,
         response_time_ms := some 100 },
       { forwarding_config_id := "c", webhook_request_id := "r3",
         status_code := some 204, success := true, error_message := "",
         attempt_number := 2, response_time_ms := some 150 }] }

/-- The average-response field of the stats, written over `configTimes`. -/
theorem stats_avg_eq (db : DB) (forwarding_config_id : String) :
    (get_forwarding_stats db forwarding_config_id).avg_response_ms =
      (if (configTimes db forwarding_config_id).isEmpty then (0 : ℤ)
       else if ((configTimes db forwarding_config_id).map
            (fun t : ℕ => (t : ℚ))).sum /
          ((configTimes db forwarding_config_id).length : ℚ) = 0 then 0
       else pyTruncRat (((configTimes db forwarding_config_id).map
            (fun t : ℕ => (t : ℚ))).sum /
          ((configTimes db forwarding_config_id).length : ℚ))) := by
  have hc : configTimes db forwarding_config_id =
      (db.logs.filter
        (fun l => l.forwarding_config_id == forwarding_config_id)).filterMap
        (fun l => l.response_time_ms) := rfl
  by_cases h : (configTimes db forwarding_config_id).isEmpty
  · rw [if_pos h]
    rw [hc] at h
    simp [get_forwarding_stats, h]
  · rw [if_neg h]
    rw [hc] at h
    simp only [get_forwarding_stats]
    rw [if_neg h, hc]

/-- C6: `get_forwarding_stats` returns total = row count, successes =
count of success rows, failures = count of non-success rows,
success_rate = round(successes/total*100) to one decimal (0 when total is
0), avg_response_ms = the integer average of the non-null response times
of all rows irrespective of success (0 when there are none); on the
example rows of `statsExampleDB` it yields total 3, successes 2,
failures 1, success_rate 66.7 and avg_response_ms 100. -/
theorem get_forwarding_stats_spec (db : DB) (forwarding_config_id : String) :
    (get_forwarding_stats db forwarding_config_id).total =
      (configLogs db forwarding_config_id).length ∧
    (get_forwarding_stats db forwarding_config_id).successes =
      ((configLogs db forwarding_config_id).filter
        (fun l => l.success)).length ∧
    (get_forwarding_stats db forwarding_config_id).failures =
      ((configLogs db forwarding_config_id).filter
        (fun l => !l.success)).length ∧
    ((configLogs db forwarding_config_id).length = 0 →
      (get_forwarding_stats db forwarding_config_id).success_rate = 0) ∧
    (0 < (configLogs db forwarding_config_id).length →
      (get_forwarding_stats db forwarding_config_id).success_rate =
        pyRound1 ((((configLogs db forwarding_config_id).filter
            (fun l => l.success)).length : ℚ) /
          ((configLogs db forwarding_config_id).length : ℚ) * 100)) ∧
    (configTimes db forwarding_config_id = [] →
      (get_forwarding_stats db forwarding_config_id).avg_response_ms = 0) ∧
    (configTimes db forwarding_config_id ≠ [] →
      (get_forwarding_stats db forwarding_config_id).avg_response_ms =
        ⌊((configTimes db forwarding_config_id).map
            (fun t : ℕ => (t : ℚ))).sum /
          ((configTimes db forwarding_config_id).length : ℚ)⌋) ∧
    get_forwarding_stats statsExampleDB "c" =
      { total := 3, successes := 2, failures := 1, success_rate := 667/10,
        avg_response_ms := 100 } := by
  refine ⟨rfl, rfl, ?_, ?_, ?_, ?_, ?_, ?_⟩
  · show (configLogs db forwarding_config_id).length -
      ((configLogs db forwarding_config_id).filter
        (fun l => l.success)).length = _
    have h := length_filter_add_length_filter_not
      (fun l : ForwardingLog => l.success) (configLogs db forwarding_config_id)
    omega
  · intro h0
    show pyRound1 (if 0 < (configLogs db forwarding_config_id).length
      then _ else 0) = 0
    rw [if_neg (by omega)]
    norm_num [pyRound1, roundHalfEven, Int.fract]
  · intro hpos
    show pyRound1 (if 0 < (configLogs db forwarding_config_id).length
      then _ else 0) = _
    rw [if_pos hpos]
    rfl
  · intro hnil
    simp [stats_avg_eq, hnil]
  · intro hne
    have hq : (0 : ℚ) ≤ ((configTimes db forwarding_config_id).map
        (fun t : ℕ => (t : ℚ))).sum /
        ((configTimes db forwarding_config_id).length : ℚ) := by
      apply div_nonneg
      · apply List.sum_nonneg
        intro x hx
        rcases List.mem_map.mp hx with ⟨t, _, rfl⟩
        exact Nat.cast_nonneg t
      · exact Nat.cast_nonneg _
    rw [stats_avg_eq]
    rw [if_neg (by simpa [List.isEmpty_iff] using hne)]
    by_cases h0 : ((configTimes db forwarding_config_id).map
        (fun t : ℕ => (t : ℚ))).sum /
        ((configTimes db forwarding_config_id).length : ℚ) = 0
    · show (if _ = (0:ℚ) then (0:ℤ) else _) = _
      rw [if_pos h0, h0]
      norm_num
    · show (if _ = (0:ℚ) then (0:ℤ) else _) = _
      rw [if_neg h0]
      unfold pyTruncRat
      rw [if_neg (not_lt.mpr hq)]
  · show ForwardingStats.mk _ _ _ _ _ = _
    have hrows : configLogs statsExampleDB "c" = statsExampleDB.logs := by
      decide
    simp only [get_forwarding_stats, statsExampleDB, ForwardingStats.mk.injEq]
    norm_num [List.filter, List.filterMap, pyRound1, roundHalfEven,
      pyTruncRat, Int.fract]

theorem get_forwarding_stats_spec_witness :
    (get_forwarding_stats statsExampleDB "c").success_rate = 667/10 ∧
    (get_forwarding_stats statsExampleDB "c").avg_response_ms = 100 ∧
    (get_forwarding_stats statsExampleDB "nope").success_rate = 0 := by
  have h := get_forwarding_stats_spec statsExampleDB "c"
  have h2 := get_forwarding_stats_spec statsExampleDB "nope"
  refine ⟨?_, ?_, ?_⟩
  · rw [h.2.2.2.2.2.2.2]
  · rw [h.2.2.2.2.2.2.2]
  · exact h2.2.2.2.1 (by decide)

/-! ## Forwarding-config save: C7 and C8 -/

/-- `filter` commutes with a map that cannot change the predicate's
verdict. -/
theorem filter_map_pred_invariant {α : Type} (f : α → α) (p : α → Bool)
    (h : ∀ x, p (f x) = p x) :
    ∀ l : List α, (l.map f).filter p = (l.filter p).map f := by
  intro l
  induction l with
  | nil => rfl
  | cons a t ih =>
    simp only [List.map_cons, List.filter_cons]
    rw [h a]
    cases hpa : p a with
    | true => simp [ih]
    | false => exact ih

/-- C7: saving a forwarding config whose submitted target URL is empty
(after trimming) or does not begin with "http://" or "https://" is
rejected with a 302 policy redirect carrying an `fwd_error` message — not
a server error — and the store is unchanged: no `ForwardingConfig` row is
created or updated. -/
theorem save_forwarding_rejects_bad_url (db : DB)
    (user_id endpoint_id : String) (form : ForwardingForm) (new_id : String)
    (hep : (get_endpoint db endpoint_id user_id).isSome = true)
    (hbad : pyStrip (formStr form.target_url "") = "" ∨
      (pyStartswith (pyStrip (formStr form.target_url "")) "http://" = false ∧
       pyStartswith (pyStrip (formStr form.target_url "")) "https://" = false)) :
    (save_forwarding db user_id endpoint_id form new_id).2 = db ∧
    (save_forwarding db user_id endpoint_id form new_id).1.status_code =
      302 ∧
    ((save_forwarding db user_id endpoint_id form new_id).1.location =
        some ("/endpoints/" ++ endpoint_id ++
          "?fwd_error=Target+URL+is+required") ∨
      (save_forwarding db user_id endpoint_id form new_id).1.location =
        some ("/endpoints/" ++ endpoint_id ++
          "?fwd_error=URL+must+start+with+http://+or+https://")) ∧
    (save_forwarding db user_id endpoint_id form new_id).1.status_code ≠
      500 := by
  cases hepv : get_endpoint db endpoint_id user_id with
  | none => rw [hepv] at hep; exact absurd hep (by simp)
  | some ep =>
    by_cases hemp : (pyStrip (formStr form.target_url "")).isEmpty
    · have hgoal : save_forwarding db user_id endpoint_id form new_id =
          (redirect ("/endpoints/" ++ endpoint_id ++
            "?fwd_error=Target+URL+is+required"), db) := by
        simp only [save_forwarding, hepv]
        rw [if_pos hemp]
      rw [hgoal]
      exact ⟨rfl, rfl, Or.inl rfl, by simp [redirect]⟩
    · have hns : (!(pyStartswith (pyStrip (formStr form.target_url "")) "http://" ||
          pyStartswith (pyStrip (formStr form.target_url "")) "https://")) = true := by
        rcases hbad with hbad | ⟨h1, h2⟩
        · exact absurd (by simp [String.isEmpty_iff, hbad]) hemp
        · simp [h1, h2]
      have hgoal : save_forwarding db user_id endpoint_id form new_id =
          (redirect ("/endpoints/" ++ endpoint_id ++
            "?fwd_error=URL+must+start+with+http://+or+https://"), db) := by
        simp only [save_forwarding, hepv]
        rw [if_neg (by simp_all), if_pos hns]
      rw [hgoal]
      exact ⟨rfl, rfl, Or.inr rfl, by simp [redirect]⟩

theorem save_forwarding_rejects_bad_url_witness :
    (save_forwarding sampleDB "user1" "ep1"
      { target_url := some "ftp://example.com", is_active := some "on",
        max_retries := some "5", timeout_seconds := some "30" }
      "cfgX").2 = sampleDB ∧
    (save_forwarding sampleDB "user1" "ep1"
      { target_url := some "ftp://example.com", is_active := some "on",
        max_retries := some "5", timeout_seconds := some "30" }
      "cfgX").1.status_code = 302 := by
  have h := save_forwarding_rejects_bad_url sampleDB "user1" "ep1"
    { target_url := some "ftp://example.com", is_active := some "on",
      max_retries := some "5", timeout_seconds := some "30" } "cfgX"
    (by decide) (Or.inr (by decide))
  exact ⟨h.1, h.2.1⟩

/-- C8: saving a forwarding config with a valid target URL clamps
`max_retries` into [1,10] and `timeout_seconds` into [5,120] rather than
rejecting them, answers with the success redirect, and upserts: the
existing row for the endpoint is updated in place when present, otherwise
exactly one new row is appended; a store with at most one config for the
endpoint keeps at most one. -/
theorem save_forwarding_clamps_and_upserts (db : DB)
    (user_id endpoint_id : String) (form : ForwardingForm) (new_id : String)
    (hep : (get_endpoint db endpoint_id user_id).isSome = true)
    (hurl : pyStartswith (pyStrip (formStr form.target_url "")) "http://" =
        true ∨
      pyStartswith (pyStrip (formStr form.target_url "")) "https://" =
        true) :
    (1 ≤ max 1 (min (parsedRetries form) 10) ∧
     max 1 (min (parsedRetries form) 10) ≤ 10 ∧
     5 ≤ max 5 (min (parsedTimeout form) 120) ∧
     max 5 (min (parsedTimeout form) 120) ≤ 120) ∧
    (save_forwarding db user_id endpoint_id form new_id).1 =
      redirect ("/endpoints/" ++ endpoint_id) ∧
    (∀ c, get_forwarding_config db endpoint_id = some c →
      (save_forwarding db user_id endpoint_id form new_id).2.configs.length =
        db.configs.length ∧
      get_forwarding_config
        (save_forwarding db user_id endpoint_id form new_id).2 endpoint_id =
        some { c with
          target_url := pyStrip (pyStrip (formStr form.target_url "")),
          is_active := form.is_active == some "on",
          max_retries := (max 1 (min (parsedRetries form) 10)).toNat,
          timeout_seconds :=
            (max 5 (min (parsedTimeout form) 120)).toNat }) ∧
    (get_forwarding_config db endpoint_id = none →
      (save_forwarding db user_id endpoint_id form new_id).2.configs =
        db.configs ++
          [{ id := new_id, endpoint_id := endpoint_id,
             target_url := pyStrip (pyStrip (formStr form.target_url "")),
             is_active := form.is_active == some "on",
             max_retries := (max 1 (min (parsedRetries form) 10)).toNat,
             timeout_seconds :=
               (max 5 (min (parsedTimeout form) 120)).toNat }]) ∧
    ((db.configs.filter (fun c => c.endpoint_id == endpoint_id)).length ≤ 1 →
      ((save_forwarding db user_id endpoint_id form
        new_id).2.configs.filter
          (fun c => c.endpoint_id == endpoint_id)).length ≤ 1) := by
  cases hepv : get_endpoint db endpoint_id user_id with
  | none => rw [hepv] at hep; exact absurd hep (by simp)
  | some ep =>
  have hor : (pyStartswith (pyStrip (formStr form.target_url "")) "http://" ||
      pyStartswith (pyStrip (formStr form.target_url "")) "https://") =
      true := by
    rcases hurl with h | h <;> simp [h]
  have hne : (pyStrip (formStr form.target_url "")).isEmpty = false := by
    cases he : (pyStrip (formStr form.target_url "")).isEmpty with
    | false => rfl
    | true =>
      rw [(String.isEmpty_iff _).mp he] at hurl
      rcases hurl with h | h <;> exact absurd h (by decide)
  refine ⟨⟨le_max_left _ _, ?_, le_max_left _ _, ?_⟩, ?_⟩
  · exact max_le (by omega) (min_le_right _ _)
  · exact max_le (by omega) (min_le_right _ _)
  cases hc : get_forwarding_config db endpoint_id with
  | some c =>
    have hgoal : save_forwarding db user_id endpoint_id form new_id =
        (redirect ("/endpoints/" ++ endpoint_id),
         update_forwarding_config db c
           (pyStrip (formStr form.target_url ""))
           (form.is_active == some "on")
           (max 1 (min (parsedRetries form) 10)).toNat
           (max 5 (min (parsedTimeout form) 120)).toNat) := by
      simp only [save_forwarding, hepv, hc]
      rw [if_neg (by simp [hne]), if_neg (by simp [hor])]
    have hcr : db.configs.find?
        (fun c => c.endpoint_id == endpoint_id) = some c := hc
    refine ⟨by rw [hgoal], ?_, ?_, ?_⟩
    · intro c2 hc2
      injection hc2 with hcc
      subst hcc
      constructor
      · rw [hgoal]
        exact List.length_map _ _
      · rw [hgoal]
        show ((db.configs.map _).find? _) = _
        rw [find?_map_pred_invariant _ _ (fun x => by
          cases hx : x.id == c.id <;> simp [hx]), hcr]
        simp
    · intro hnone
      exact absurd hnone (by simp)
    · intro hle
      rw [hgoal]
      show ((db.configs.map _).filter _).length ≤ 1
      rw [filter_map_pred_invariant _ _ (fun x => by
        cases hx : x.id == c.id <;> simp [hx]), List.length_map]
      exact hle
  | none =>
    have hgoal : save_forwarding db user_id endpoint_id form new_id =
        (redirect ("/endpoints/" ++ endpoint_id),
         create_forwarding_config db endpoint_id
           (pyStrip (formStr form.target_url ""))
           (form.is_active == some "on")
           (max 1 (min (parsedRetries form) 10)).toNat
           (max 5 (min (parsedTimeout form) 120)).toNat new_id) := by
      simp only [save_forwarding, hepv, hc]
      rw [if_neg (by simp [hne]), if_neg (by simp [hor])]
    have hcr : db.configs.find?
        (fun c => c.endpoint_id == endpoint_id) = none := hc
    refine ⟨by rw [hgoal], ?_, ?_, ?_⟩
    · intro c2 hc2
      exact absurd hc2 (by simp)
    · intro _
      rw [hgoal]
      rfl
    · intro hle
      rw [hgoal]
      show ((db.configs ++ [_]).filter _).length ≤ 1
      rw [List.filter_append]
      have hzero : db.configs.filter
          (fun c => c.endpoint_id == endpoint_id) = [] := by
        rw [List.filter_eq_nil_iff]
        intro a ha
        have := List.find?_eq_none.mp hcr a ha
        simpa using this
      rw [hzero]
      simp

/-- A forwarding form with a valid URL, an out-of-range retry count and a
non-numeric timeout. -/
def sampleFwdForm : ForwardingForm :=
  { target_url := some "https://new.example/h", is_active := some "on",
    max_retries := some "99", timeout_seconds := some "abc" }

theorem save_forwarding_clamps_and_upserts_witness :
    (save_forwarding sampleDB "user1" "ep1" sampleFwdForm "cfgX").1 =
      redirect ("/endpoints/" ++ "ep1") ∧
    get_forwarding_config
      (save_forwarding sampleDB "user1" "ep1" sampleFwdForm "cfgX").2
      "ep1" =
      some { sampleConfig with
        target_url :=
          pyStrip (pyStrip (formStr sampleFwdForm.target_url "")),
        is_active := sampleFwdForm.is_active == some "on",
        max_retries := (max 1 (min (parsedRetries sampleFwdForm) 10)).toNat,
        timeout_seconds :=
          (max 5 (min (parsedTimeout sampleFwdForm) 120)).toNat } := by
  have h := save_forwarding_clamps_and_upserts sampleDB "user1" "ep1"
    sampleFwdForm "cfgX" (by decide) (Or.inr (by decide))
  exact ⟨h.2.1, (h.2.2.1 sampleConfig (by decide)).2⟩

/-! ## Non-numeric form fields: C9

The repository's own tests (tests/test_qa.py,
`test_create_endpoint_non_numeric_response_code` and
`test_edit_endpoint_non_numeric_response_code`) assert that a non-numeric
`response_code` falls back to its default and the request succeeds with a
302 redirect. The handlers, however, call `int()` on the submitted value
with no try/except (src/app/api/endpoints.py lines 76 and 208), so the
value "abc" raises `ValueError` out of the handler — a 500, not a
fallback. The forwarding handler's numeric fields are guarded
(src/app/api/forwarding.py lines 38-45) and do fall back. -/

/-- C9 (code bug): evaluating `endpoint_create` and `endpoint_update` at
the repository's own test inputs (`response_code` of "abc" /
"not-a-number") raises `ValueError` instead of falling back to the
default, while the guarded forwarding fields do fall back. -/
theorem endpoint_create_non_numeric_code_error :
    endpoint_create sampleDB "user1" true
      { name := some "Bad Code Test", description := some "",
        is_active := none, response_code := some "abc",
        response_body := some "\x7b\x7d",
        response_content_type := some "application/json" } "epX" =
      Except.error "ValueError: invalid literal for int()" ∧
    endpoint_update sampleDB "user1" "ep1"
      { name := some "QA Endpoint", description := none,
        is_active := some "on", response_code := some "not-a-number",
        response_body := some "\x7b\x7d",
        response_content_type := some "application/json" } =
      Except.error "ValueError: invalid literal for int()" ∧
    parsedRetries { target_url := some "https://example.com/hook",
                    is_active := some "on", max_retries := some "abc",
                    timeout_seconds := some "xyz" } = 5 ∧
    parsedTimeout { target_url := some "https://example.com/hook",
                    is_active := some "on", max_retries := some "abc",
                    timeout_seconds := some "xyz" } = 30 := by
  exact ⟨rfl, rfl, by decide, by decide⟩

/-! ## Tenant isolation and not-found statuses: C4 -/

/-- C4 counterexample: `save_forwarding` invoked by `user2` on endpoint
"ep1", which exists but is owned by `user1`, answers 302 (a redirect to
the endpoint list), not 404. -/
theorem other_owner_not_404_counterexample :
    (save_forwarding sampleDB "user2" "ep1" sampleFwdForm "cfgY").1.status_code
      = 302 ∧
    ¬((save_forwarding sampleDB "user2" "ep1" sampleFwdForm
      "cfgY").1.status_code = 404) := by
  exact ⟨by decide, by decide⟩

/-- C4 (amended): when the referenced endpoint exists but belongs to a
different owner, every owner-facing operation answers exactly as for a
nonexistent id — the page handlers (detail, edit, update, delete, logs)
with the 404 page, and the forwarding save/delete and replay handlers
with a 302 redirect to the endpoint list — and never with 403. -/
theorem tenant_isolation_amended (db : DB) (uid eid : String)
    (hother : ∀ e ∈ db.endpoints, e.id = eid → e.user_id ≠ uid) :
    get_endpoint db eid uid = none ∧
    endpoint_detail db uid eid = not_found_page ∧
    endpoint_edit_page db uid eid = not_found_page ∧
    (∀ form, endpoint_update db uid eid form =
      Except.ok (not_found_page, db)) ∧
    endpoint_remove db uid eid = (not_found_page, db) ∧
    forwarding_logs_page db uid eid = not_found_page ∧
    (∀ form new_id, save_forwarding db uid eid form new_id =
      (redirect "/endpoints", db)) ∧
    remove_forwarding db uid eid = (redirect "/endpoints", db) ∧
    (∀ jsonLoads request_id outcome elapsed_ms,
      replay_webhook jsonLoads db uid eid request_id outcome elapsed_ms =
        (redirect "/endpoints", db)) ∧
    not_found_page.status_code = 404 ∧
    (redirect "/endpoints").status_code = 302 ∧
    not_found_page.status_code ≠ 403 ∧
    (redirect "/endpoints").status_code ≠ 403 ∧
    (∀ db2 : DB, (∀ e ∈ db2.endpoints, e.id ≠ eid) →
      endpoint_detail db2 uid eid = endpoint_detail db uid eid ∧
      (∀ form new_id, (save_forwarding db2 uid eid form new_id).1 =
        (save_forwarding db uid eid form new_id).1)) := by
  have hnone : get_endpoint db eid uid = none := by
    rw [get_endpoint, List.find?_eq_none]
    intro x hx
    simp only [Bool.and_eq_true, beq_iff_eq, not_and]
    intro hid
    exact hother x hx hid
  have habs : ∀ (db2 : DB), (∀ e ∈ db2.endpoints, e.id ≠ eid) →
      get_endpoint db2 eid uid = none := by
    intro db2 h2
    rw [get_endpoint, List.find?_eq_none]
    intro x hx
    simp only [Bool.and_eq_true, beq_iff_eq, not_and]
    intro hid
    exact absurd hid (h2 x hx)
  refine ⟨hnone, ?_, ?_, ?_, ?_, ?_, ?_, ?_, ?_, rfl, rfl,
    by decide, by decide, ?_⟩
  · simp [endpoint_detail, hnone]
  · simp [endpoint_edit_page, hnone]
  · intro form
    simp [endpoint_update, hnone]
  · simp [endpoint_remove, hnone]
  · simp [forwarding_logs_page, hnone]
  · intro form new_id
    simp [save_forwarding, hnone]
  · simp [remove_forwarding, hnone]
  · intro jsonLoads request_id outcome elapsed_ms
    simp [replay_webhook, hnone]
  · intro db2 h2
    constructor
    · simp [endpoint_detail, hnone, habs db2 h2]
    · intro form new_id
      simp [save_forwarding, hnone, habs db2 h2]

theorem tenant_isolation_amended_witness :
    endpoint_detail sampleDB "user2" "ep1" = not_found_page ∧
    (save_forwarding sampleDB "user2" "ep1" sampleFwdForm "cfgZ").1.status_code
      = 302 ∧
    remove_forwarding sampleDB "user2" "ep1" =
      (redirect "/endpoints", sampleDB) := by
  have h := tenant_isolation_amended sampleDB "user2" "ep1" (by decide)
  refine ⟨h.2.1, ?_, h.2.2.2.2.2.2.2.1⟩
  rw [h.2.2.2.2.2.2.1 sampleFwdForm "cfgZ"]
  rfl

/-! ## Body-size boundary: C3 -/

/-- C3: against an existing active endpoint, a body of exactly
`max_body_size` bytes is accepted (the canned response is returned and
exactly one request row is persisted); a body of `max_body_size + 1`
bytes is rejected with 413 — through the Content-Length pre-check when
the header declares the oversize, and through the post-read size check
when the header is absent or understates the size — and a rejected call
persists nothing. -/
theorem receive_webhook_body_size_boundary (decode : List Nat → String)
    (db : DB) (endpoint_id : String) (ep : Endpoint) (new_id : String)
    (h1 : get_endpoint_by_id db endpoint_id = some ep)
    (h2 : ep.is_active = true) :
    (∀ request : InboundRequest,
      request.body_bytes.length = max_body_size →
      (request.content_length = none ∨
        request.content_length = some (toString max_body_size)) →
      ((receive_webhook decode db endpoint_id request new_id).1 =
        { status_code := ep.response_code, content := ep.response_body,
          media_type := ep.response_content_type, location := none } ∧
       (receive_webhook decode db endpoint_id request
         new_id).2.1.requests.length = db.requests.length + 1)) ∧
    (∀ request : InboundRequest,
      request.body_bytes.length = max_body_size + 1 →
      request.content_length = some (toString (max_body_size + 1)) →
      ((receive_webhook decode db endpoint_id request new_id).1 =
        err_too_large ∧
       (receive_webhook decode db endpoint_id request new_id).2.1 = db)) ∧
    (∀ request : InboundRequest,
      request.body_bytes.length = max_body_size + 1 →
      (request.content_length = none ∨
        ∃ s, request.content_length = some s ∧ pyStrIsDigit s = true ∧
          pyIntOfDigits s ≤ max_body_size) →
      ((receive_webhook decode db endpoint_id request new_id).1 =
        err_too_large ∧
       (receive_webhook decode db endpoint_id request new_id).2.1 = db)) := by
  have hact : (!ep.is_active) = false := by rw [h2]; rfl
  refine ⟨?_, ?_, ?_⟩
  · intro request hlen hcl
    have hgoal : receive_webhook decode db endpoint_id request new_id =
        ({ status_code := ep.response_code, content := ep.response_body,
           media_type := ep.response_content_type, location := none },
         (store_webhook_request db ep request.method request.headers
           (decode request.body_bytes) request.query_params
           request.content_type
           (match request.client_host with
            | some h => h
            | none => "unknown") new_id).2,
         (match get_forwarding_config
             (store_webhook_request db ep request.method request.headers
               (decode request.body_bytes) request.query_params
               request.content_type
               (match request.client_host with
                | some h => h
                | none => "unknown") new_id).2 endpoint_id with
          | some fwd_config =>
            if fwd_config.is_active then some fwd_config.id else none
          | none => none)) := by
      rcases hcl with hcl | hcl
      · simp only [receive_webhook, h1, hact, Bool.false_eq_true,
          if_false, hcl]
        rw [if_neg (by omega)]
      · simp only [receive_webhook, h1, hact, Bool.false_eq_true,
          if_false, hcl]
        rw [if_neg (by decide), if_neg (by omega)]
    rw [hgoal]
    refine ⟨rfl, ?_⟩
    show (increment_request_count
      { db with requests := db.requests ++ [_] } ep).requests.length = _
    simp [increment_request_count]
  · intro request _hlen hcl
    have hgoal : receive_webhook decode db endpoint_id request new_id =
        (err_too_large, db, none) := by
      simp only [receive_webhook, h1, hact, Bool.false_eq_true, if_false,
        hcl]
      rw [if_pos (by decide)]
    rw [hgoal]
    exact ⟨rfl, rfl⟩
  · intro request hlen hcl
    have hgoal : receive_webhook decode db endpoint_id request new_id =
        (err_too_large, db, none) := by
      rcases hcl with hcl | ⟨s, hcl, hdig, hle⟩
      · simp only [receive_webhook, h1, hact, Bool.false_eq_true, if_false,
          hcl]
        rw [if_pos (by omega)]
      · have hsne : s.isEmpty = false := by
          cases hse : s.isEmpty with
          | false => rfl
          | true =>
            rw [(String.isEmpty_iff s).mp hse] at hdig
            exact absurd hdig (by decide)
        have hgt : decide (pyIntOfDigits s > max_body_size) = false := by
          simp only [decide_eq_false_iff_not, not_lt]
          exact hle
        simp only [receive_webhook, h1, hact, Bool.false_eq_true, if_false,
          hcl]
        rw [if_neg (by simp [hsne, hgt]), if_pos (by omega)]
    rw [hgoal]
    exact ⟨rfl, rfl⟩

/-- An inbound call at exactly the size limit, with an honest
Content-Length header. -/
def sampleAtLimit : InboundRequest :=
  { method := "POST", content_length := some "1048576",
    body_bytes := List.replicate 1048576 0, headers := [],
    query_params := [], content_type := "application/json",
    client_host := some "1.2.3.4" }

/-- An inbound call one byte over the limit, with an honest
Content-Length header. -/
def sampleOversized : InboundRequest :=
  { method := "POST", content_length := some "1048577",
    body_bytes := List.replicate 1048577 0, headers := [],
    query_params := [], content_type := "application/json",
    client_host := some "1.2.3.4" }

theorem receive_webhook_body_size_boundary_witness :
    (receive_webhook (fun _ => "") sampleDB "ep1" sampleAtLimit
      "reqN").1.status_code = 200 ∧
    (receive_webhook (fun _ => "") sampleDB "ep1" sampleAtLimit
      "reqN").2.1.requests.length = 2 ∧
    (receive_webhook (fun _ => "") sampleDB "ep1" sampleOversized
      "reqN").1 = err_too_large ∧
    (receive_webhook (fun _ => "") sampleDB "ep1" sampleOversized
      "reqN").2.1 = sampleDB := by
  have h := receive_webhook_body_size_boundary (fun _ => "") sampleDB "ep1"
    sampleEndpoint "reqN" (by decide) (by decide)
  have ha := h.1 sampleAtLimit
    (by rw [show sampleAtLimit.body_bytes = List.replicate 1048576 0
        from rfl, List.length_replicate]; decide)
    (Or.inr (by decide))
  have hb := h.2.1 sampleOversized
    (by rw [show sampleOversized.body_bytes = List.replicate 1048577 0
        from rfl, List.length_replicate]; decide)
    (by decide)
  refine ⟨?_, ?_, hb.1, hb.2⟩
  · rw [ha.1]
    decide
  · rw [ha.2]
    decide

/-! ## Retry orchestration: C1 -/

/-- The backoff pause taken after failed attempt `n`:
`min(2^(n-1), 30)` seconds. -/
def attDelay (n : Nat) : Nat := min (2 ^ (n - 1)) 30

theorem attLog_attempt_number
    (jsonLoads : String → Option (List (String × String)))
    (config : ForwardingConfig) (webhook_request : WebhookRequest)
    (outcomes : Nat → DispatchOutcome) (elapsed : Nat → Nat) (n : Nat) :
    (attLog jsonLoads config webhook_request outcomes elapsed
      n).attempt_number = n := rfl

theorem attLog_success
    (jsonLoads : String → Option (List (String × String)))
    (config : ForwardingConfig) (webhook_request : WebhookRequest)
    (outcomes : Nat → DispatchOutcome) (elapsed : Nat → Nat) (n : Nat) :
    (attLog jsonLoads config webhook_request outcomes elapsed n).success =
      outcomeSuccess (outcomes n) := by
  show (classifyOutcome config.timeout_seconds (outcomes n)).2.1 = _
  cases h : outcomes n <;> simp [classifyOutcome, outcomeSuccess]

/-- Peeling the first element off the attempt range `a .. b`. -/
theorem range'_peel (a b : Nat) (h : a ≤ b) :
    List.range' a (b + 1 - a) = a :: List.range' (a + 1) (b + 1 - (a + 1)) := by
  rw [show b + 1 - a = (b - a) + 1 from by omega, List.range'_succ,
    show b + 1 - (a + 1) = b - a from by omega]

/-- Peeling the first element off the pause range `a .. b-1`. -/
theorem range'_peel2 (a b : Nat) (h : a < b) :
    List.range' a (b - a) = a :: List.range' (a + 1) (b - (a + 1)) := by
  rw [show b - a = (b - (a + 1)) + 1 from by omega, List.range'_succ]

/-- `retryGo` under a target that fails before attempt `k` and succeeds at
attempt `k`: the remaining run appends the logs of attempts
`attempt .. k`, sleeps after each failed attempt, and returns the log of
attempt `k`. -/
theorem retryGo_success_spec
    (jsonLoads : String → Option (List (String × String)))
    (config : ForwardingConfig) (webhook_request : WebhookRequest)
    (outcomes : Nat → DispatchOutcome) (elapsed : Nat → Nat) (k : Nat)
    (hk : k ≤ config.max_retries)
    (hsucc : outcomeSuccess (outcomes k) = true) :
    ∀ fuel attempt db, 1 ≤ attempt → attempt ≤ k →
      attempt + fuel = config.max_retries + 1 →
      (∀ n, attempt ≤ n → n < k → outcomeSuccess (outcomes n) = false) →
      retryGo jsonLoads config webhook_request outcomes elapsed attempt fuel
        db =
        ({ db with
            logs := db.logs ++
              (List.range' attempt (k + 1 - attempt)).map
                (attLog jsonLoads config webhook_request outcomes elapsed) },
         (List.range' attempt (k - attempt)).map attDelay,
         some (attLog jsonLoads config webhook_request outcomes elapsed
           k)) := by
  intro fuel
  induction fuel with
  | zero => intro attempt db h1 h2 h3 _; omega
  | succ fuel ih =>
    intro attempt db h1 h2 h3 hfail
    have hsa : (forward_webhook jsonLoads db config webhook_request
        (outcomes attempt) (elapsed attempt) attempt).1.success =
        outcomeSuccess (outcomes attempt) :=
      attLog_success jsonLoads config webhook_request outcomes elapsed
        attempt
    have hlogs : (forward_webhook jsonLoads db config webhook_request
        (outcomes attempt) (elapsed attempt) attempt).2.2 =
        { db with logs := db.logs ++
          [attLog jsonLoads config webhook_request outcomes elapsed
            attempt] } :=
      forward_webhook_snd_snd jsonLoads db config webhook_request
        (outcomes attempt) (elapsed attempt) attempt
    simp only [retryGo]
    by_cases hak : attempt = k
    · rw [if_pos (by rw [hsa, hak]; exact hsucc)]
      rw [hak, show k + 1 - k = 1 from by omega, List.range'_one,
        Nat.sub_self, List.range'_zero]
      rw [hak] at hlogs
      rw [hlogs]
      rfl
    · have hfa : outcomeSuccess (outcomes attempt) = false :=
        hfail attempt (le_refl _) (by omega)
      rw [if_neg (by rw [hsa, hfa]; exact Bool.false_ne_true),
        if_pos (show attempt < config.max_retries by omega)]
      have hlist : (db.logs ++
          [attLog jsonLoads config webhook_request outcomes elapsed
            attempt]) ++
          (List.range' (attempt + 1) (k + 1 - (attempt + 1))).map
            (attLog jsonLoads config webhook_request outcomes elapsed) =
          db.logs ++ (List.range' attempt (k + 1 - attempt)).map
            (attLog jsonLoads config webhook_request outcomes elapsed) := by
        rw [range'_peel attempt k (by omega), List.map_cons,
          List.append_assoc, List.singleton_append]
      have hsl : attDelay attempt ::
          (List.range' (attempt + 1) (k - (attempt + 1))).map attDelay =
          (List.range' attempt (k - attempt)).map attDelay := by
        rw [range'_peel2 attempt k (by omega), List.map_cons]
      rw [ih (attempt + 1)
        ((forward_webhook jsonLoads db config webhook_request
          (outcomes attempt) (elapsed attempt) attempt).2.2)
        (by omega) (by omega) (by omega)
        (fun n hn1 hn2 => hfail n (by omega) hn2), hlogs]
      rw [Prod.mk.injEq, Prod.mk.injEq]
      refine ⟨?_, ?_, rfl⟩
      · exact congrArg (fun l => { db with logs := l }) hlist
      · exact hsl

/-- `retryGo` under a target that fails every remaining attempt: all of
attempts `attempt .. max_retries` are logged, each non-final failure is
followed by a pause, and the log of the final attempt is returned. -/
theorem retryGo_allfail_spec
    (jsonLoads : String → Option (List (String × String)))
    (config : ForwardingConfig) (webhook_request : WebhookRequest)
    (outcomes : Nat → DispatchOutcome) (elapsed : Nat → Nat)
    (hfailall : ∀ n, 1 ≤ n → n ≤ config.max_retries →
      outcomeSuccess (outcomes n) = false) :
    ∀ fuel attempt db, 1 ≤ attempt → attempt ≤ config.max_retries →
      attempt + fuel = config.max_retries + 1 →
      retryGo jsonLoads config webhook_request outcomes elapsed attempt fuel
        db =
        ({ db with
            logs := db.logs ++
              (List.range' attempt (config.max_retries + 1 - attempt)).map
                (attLog jsonLoads config webhook_request outcomes elapsed) },
         (List.range' attempt (config.max_retries - attempt)).map attDelay,
         some (attLog jsonLoads config webhook_request outcomes elapsed
           config.max_retries)) := by
  intro fuel
  induction fuel with
  | zero => intro attempt db h1 h2 h3; omega
  | succ fuel ih =>
    intro attempt db h1 h2 h3
    have hsa : (forward_webhook jsonLoads db config webhook_request
        (outcomes attempt) (elapsed attempt) attempt).1.success =
        outcomeSuccess (outcomes attempt) :=
      attLog_success jsonLoads config webhook_request outcomes elapsed
        attempt
    have hlogs : (forward_webhook jsonLoads db config webhook_request
        (outcomes attempt) (elapsed attempt) attempt).2.2 =
        { db with logs := db.logs ++
          [attLog jsonLoads config webhook_request outcomes elapsed
            attempt] } :=
      forward_webhook_snd_snd jsonLoads db config webhook_request
        (outcomes attempt) (elapsed attempt) attempt
    have hfa : outcomeSuccess (outcomes attempt) = false :=
      hfailall attempt h1 h2
    simp only [retryGo]
    rw [if_neg (by rw [hsa, hfa]; exact Bool.false_ne_true)]
    by_cases hlast : attempt < config.max_retries
    · rw [if_pos hlast]
      have hlist : (db.logs ++
          [attLog jsonLoads config webhook_request outcomes elapsed
            attempt]) ++
          (List.range' (attempt + 1)
            (config.max_retries + 1 - (attempt + 1))).map
            (attLog jsonLoads config webhook_request outcomes elapsed) =
          db.logs ++
            (List.range' attempt (config.max_retries + 1 - attempt)).map
            (attLog jsonLoads config webhook_request outcomes elapsed) := by
        rw [range'_peel attempt config.max_retries (by omega),
          List.map_cons, List.append_assoc, List.singleton_append]
      have hsl : attDelay attempt ::
          (List.range' (attempt + 1)
            (config.max_retries - (attempt + 1))).map attDelay =
          (List.range' attempt (config.max_retries - attempt)).map
            attDelay := by
        rw [range'_peel2 attempt config.max_retries (by omega),
          List.map_cons]
      rw [ih (attempt + 1)
        ((forward_webhook jsonLoads db config webhook_request
          (outcomes attempt) (elapsed attempt) attempt).2.2)
        (by omega) (by omega) (by omega), hlogs]
      rw [Prod.mk.injEq, Prod.mk.injEq]
      refine ⟨?_, ?_, rfl⟩
      · exact congrArg (fun l => { db with logs := l }) hlist
      · exact hsl
    · rw [if_neg hlast]
      have hae : attempt = config.max_retries := by omega
      rw [hae, show config.max_retries + 1 - config.max_retries = 1 from by
        omega, List.range'_one, Nat.sub_self, List.range'_zero]
      rw [hae] at hlogs
      rw [hlogs]
      rfl

/-- C1: with `max_retries ≥ 1`, `forward_with_retries` runs
`forward_webhook` sequentially at attempts 1, 2, ...; when attempts
`1..k-1` fail and attempt `k ≤ max_retries` succeeds it stops at `k`,
appending exactly `k` log rows numbered `1..k` (the last marked success)
and pausing `min(2^(n-1),30)` seconds after each failed attempt `n < k`
(never after the final attempt — `k-1` pauses in all), and returns the log
of attempt `k`; when every attempt fails it runs all `max_retries`
attempts with `max_retries - 1` pauses and returns the log of the last
attempt. -/
theorem forward_with_retries_spec
    (jsonLoads : String → Option (List (String × String))) (db : DB)
    (config : ForwardingConfig) (webhook_request : WebhookRequest)
    (outcomes : Nat → DispatchOutcome) (elapsed : Nat → Nat)
    (hmr : 1 ≤ config.max_retries) :
    (∀ k, 1 ≤ k → k ≤ config.max_retries →
      (∀ n, 1 ≤ n → n < k → outcomeSuccess (outcomes n) = false) →
      outcomeSuccess (outcomes k) = true →
      (forward_with_retries jsonLoads db config webhook_request outcomes
        elapsed =
        ({ db with
            logs := db.logs ++
              (List.range' 1 k).map
              (attLog jsonLoads config webhook_request outcomes elapsed) },
         (List.range' 1 (k - 1)).map attDelay,
         some (attLog jsonLoads config webhook_request outcomes elapsed
           k)) ∧
       ((List.range' 1 k).map
          (attLog jsonLoads config webhook_request outcomes
            elapsed)).map (fun l => l.attempt_number) = List.range' 1 k ∧
       ((List.range' 1 k).map
          (attLog jsonLoads config webhook_request outcomes
            elapsed)).length = k ∧
       ((List.range' 1 (k - 1)).map attDelay).length = k - 1 ∧
       (attLog jsonLoads config webhook_request outcomes elapsed
         k).success = true)) ∧
    ((∀ n, 1 ≤ n → n ≤ config.max_retries →
        outcomeSuccess (outcomes n) = false) →
      forward_with_retries jsonLoads db config webhook_request outcomes
        elapsed =
        ({ db with
            logs := db.logs ++
              (List.range' 1 config.max_retries).map
              (attLog jsonLoads config webhook_request outcomes elapsed) },
         (List.range' 1 (config.max_retries - 1)).map attDelay,
         some (attLog jsonLoads config webhook_request outcomes elapsed
           config.max_retries))) := by
  constructor
  · intro k hk1 hk2 hfail hsucc
    refine ⟨?_, ?_, by simp, by simp, ?_⟩
    · have h := retryGo_success_spec jsonLoads config webhook_request
        outcomes elapsed k hk2 hsucc config.max_retries 1 db (le_refl _)
        hk1 (by omega) (fun n hn1 hn2 => hfail n hn1 hn2)
      rw [show k + 1 - 1 = k from by omega] at h
      exact h
    · rw [List.map_map]
      have : ∀ n ∈ List.range' 1 k,
          ((fun l : ForwardingLog => l.attempt_number) ∘
            attLog jsonLoads config webhook_request outcomes elapsed) n =
          id n := fun n _ => rfl
      rw [List.map_congr_left this, List.map_id]
    · rw [attLog_success]
      exact hsucc
  · intro hfailall
    have h := retryGo_allfail_spec jsonLoads config webhook_request
      outcomes elapsed hfailall config.max_retries 1 db (le_refl _) hmr
      (by omega)
    rw [show config.max_retries + 1 - 1 = config.max_retries from by
      omega] at h
    exact h

/-- The network behaviour "attempts 1 and 2 see HTTP 500, attempt 3 sees
HTTP 200". -/
def sampleOutcomes : Nat → DispatchOutcome := fun n =>
  if n = 3 then DispatchOutcome.response 200
  else DispatchOutcome.response 500

/-- A constant wall-clock measurement. -/
def sampleElapsed : Nat → Nat := fun _ => 12

theorem forward_with_retries_spec_witness :
    forward_with_retries (fun _ => none) sampleDB sampleConfig
      sampleRequest sampleOutcomes sampleElapsed =
      ({ sampleDB with
          logs := sampleDB.logs ++
            (List.range' 1 3).map
            (attLog (fun _ => none) sampleConfig sampleRequest
              sampleOutcomes sampleElapsed) },
       (List.range' 1 (3 - 1)).map attDelay,
       some (attLog (fun _ => none) sampleConfig sampleRequest
         sampleOutcomes sampleElapsed 3)) ∧
    (attLog (fun _ => none) sampleConfig sampleRequest sampleOutcomes
      sampleElapsed 3).success = true := by
  have h := (forward_with_retries_spec (fun _ => none) sampleDB
    sampleConfig sampleRequest sampleOutcomes sampleElapsed
    (by decide)).1 3 (by decide) (by decide)
    (fun n h1 h2 => by
      have hne : n ≠ 3 := by omega
      simp [sampleOutcomes, hne, outcomeSuccess])
    (by decide)
  exact ⟨h.1, h.2.2.2.2⟩

end HookDash
